import Mathlib

/-!
Verification of the iron-veil database-proxy core against its
natural-language specification.

The development shallowly embeds the Rust sources:

* `src/scanner.rs`   — the PII scanner (two anchored regexes, fixed order);
* `src/interceptor.rs` — the `Anonymizer` interceptor (`on_row_description`,
  `on_data_row`);
* `src/main.rs`      — the connection loop (`process_connection`);
* `src/config.rs`    — the configuration data model.

Byte strings are `List Nat` (each element one byte, 0–255); decoded text is a
`List Nat` of Unicode code points.  The external crates used by the
interceptor (`std` `DefaultHasher`, `rand_chacha`, `fake`) are deterministic
functions of their inputs; they are modelled as an abstract parameter record
`FakerEnv`, so every theorem below holds for every choice of hash and
generator functions.

The `regex` crate is modelled by a small regular-expression type with a
Brzozowski-derivative matcher, proved correct against an inductive matching
semantics.  The character classes are taken from the two pattern strings in
`src/scanner.rs`, compiled by the crate in its default Unicode mode: `\d` is
the full Unicode general category Nd (embedded below as its explicit range
table), `\s` is the full Unicode White_Space set, and the `(?i)` flag uses
Unicode simple case folding, under which `[a-z]` also matches U+017F (long s)
and U+212A (Kelvin sign).
-/

/-! ## Regular expressions with Brzozowski derivatives -/

/-- Regular expressions over code points.  `cls p` matches a single code point
satisfying `p`; this mirrors a character class of the source patterns. -/
inductive Rx where
  | emp : Rx
  | eps : Rx
  | cls (p : Nat → Bool) : Rx
  | cat (a b : Rx) : Rx
  | alt (a b : Rx) : Rx
  | star (a : Rx) : Rx

/-- Does the expression accept the empty string? -/
def Rx.nullable : Rx → Bool
  | .emp => false
  | .eps => true
  | .cls _ => false
  | .cat a b => a.nullable && b.nullable
  | .alt a b => a.nullable || b.nullable
  | .star _ => true

/-- Concatenation smart constructor (keeps derivative terms small). -/
def Rx.mkCat : Rx → Rx → Rx
  | .emp, _ => .emp
  | _, .emp => .emp
  | .eps, b => b
  | a, .eps => a
  | a, b => .cat a b

/-- Alternation smart constructor (keeps derivative terms small). -/
def Rx.mkAlt : Rx → Rx → Rx
  | .emp, b => b
  | a, .emp => a
  | a, b => .alt a b

/-- Brzozowski derivative of an expression by one code point. -/
def Rx.deriv (c : Nat) : Rx → Rx
  | .emp => .emp
  | .eps => .emp
  | .cls p => if p c then .eps else .emp
  | .cat a b =>
    if a.nullable then .mkAlt (.mkCat (a.deriv c) b) (b.deriv c)
    else .mkCat (a.deriv c) b
  | .alt a b => .mkAlt (a.deriv c) (b.deriv c)
  | .star a => .mkCat (a.deriv c) (.star a)

/-- Anchored matching of a whole code-point string by iterated derivatives.
This models the `regex` crate's `is_match` for the anchored `^…$` patterns of
`src/scanner.rs`. -/
def rxMatch : Rx → List Nat → Bool
  | r, [] => r.nullable
  | r, c :: cs => rxMatch (r.deriv c) cs

/-- `[a-z]` under `(?i)`: with the regex crate's Unicode simple case folding
this is an ASCII letter of either case, plus the two code points whose
simple folding lands in a–z — U+017F LATIN SMALL LETTER LONG S (folds to s)
and U+212A KELVIN SIGN (folds to k). -/
def isAlphaCI (c : Nat) : Bool :=
  decide ((97 ≤ c ∧ c ≤ 122) ∨ (65 ≤ c ∧ c ≤ 90) ∨ c = 0x17F ∨ c = 0x212A)

/-- The inclusive code-point ranges of the Unicode 15.0 general category Nd
(decimal digit), the crate's `\d` class in default Unicode mode: 63 runs of
ten digits per script plus the fifty mathematical digits at U+1D7CE–U+1D7FF,
680 code points in total. -/
def ndRanges : List (Nat × Nat) :=
  [(0x30, 0x39), (0x660, 0x669), (0x6F0, 0x6F9), (0x7C0, 0x7C9),
   (0x966, 0x96F), (0x9E6, 0x9EF), (0xA66, 0xA6F), (0xAE6, 0xAEF),
   (0xB66, 0xB6F), (0xBE6, 0xBEF), (0xC66, 0xC6F), (0xCE6, 0xCEF),
   (0xD66, 0xD6F), (0xDE6, 0xDEF), (0xE50, 0xE59), (0xED0, 0xED9),
   (0xF20, 0xF29), (0x1040, 0x1049), (0x1090, 0x1099), (0x17E0, 0x17E9),
   (0x1810, 0x1819), (0x1946, 0x194F), (0x19D0, 0x19D9), (0x1A80, 0x1A89),
   (0x1A90, 0x1A99), (0x1B50, 0x1B59), (0x1BB0, 0x1BB9), (0x1C40, 0x1C49),
   (0x1C50, 0x1C59), (0xA620, 0xA629), (0xA8D0, 0xA8D9), (0xA900, 0xA909),
   (0xA9D0, 0xA9D9), (0xA9F0, 0xA9F9), (0xAA50, 0xAA59), (0xABF0, 0xABF9),
   (0xFF10, 0xFF19), (0x104A0, 0x104A9), (0x10D30, 0x10D39),
   (0x11066, 0x1106F), (0x110F0, 0x110F9), (0x11136, 0x1113F),
   (0x111D0, 0x111D9), (0x112F0, 0x112F9), (0x11450, 0x11459),
   (0x114D0, 0x114D9), (0x11650, 0x11659), (0x116C0, 0x116C9),
   (0x11730, 0x11739), (0x118E0, 0x118E9), (0x11950, 0x11959),
   (0x11C50, 0x11C59), (0x11D50, 0x11D59), (0x11DA0, 0x11DA9),
   (0x11F50, 0x11F59), (0x16A60, 0x16A69), (0x16AC0, 0x16AC9),
   (0x16B50, 0x16B59), (0x1D7CE, 0x1D7FF), (0x1E140, 0x1E149),
   (0x1E2F0, 0x1E2F9), (0x1E4F0, 0x1E4F9), (0x1E950, 0x1E959),
   (0x1FBF0, 0x1FBF9)]

/-- `\d`: a Unicode decimal digit (category Nd), e.g. also the Arabic-Indic
digits U+0660–U+0669 and the fullwidth digits U+FF10–U+FF19. -/
def isDigitCp (c : Nat) : Bool := ndRanges.any (fun r => decide (r.1 ≤ c ∧ c ≤ r.2))

/-- `\s`: a Unicode White_Space code point — the ASCII whitespace characters
(tab, LF, VT, FF, CR, space) together with NEL U+0085, NBSP U+00A0, Ogham
space U+1680, the typographic spaces U+2000–U+200A, the separators U+2028 and
U+2029, narrow NBSP U+202F, MMSP U+205F and ideographic space U+3000. -/
def isSpaceCp (c : Nat) : Bool :=
  decide ((9 ≤ c ∧ c ≤ 13) ∨ c = 32 ∨ c = 0x85 ∨ c = 0xA0 ∨ c = 0x1680 ∨
    (0x2000 ≤ c ∧ c ≤ 0x200A) ∨ c = 0x2028 ∨ c = 0x2029 ∨ c = 0x202F ∨
    c = 0x205F ∨ c = 0x3000)

/-- `[a-z0-9._%+-]` under `(?i)`: the class of the email pattern's local
part (code points 46 `.`, 95 `_`, 37 `%`, 43 `+`, 45 `-`). -/
def emailLocalClass (c : Nat) : Bool :=
  isAlphaCI c || isDigitCp c || decide (c = 46) || decide (c = 95) ||
    decide (c = 37) || decide (c = 43) || decide (c = 45)

/-- `[a-z0-9.-]` under `(?i)`: the class of the email pattern's domain part. -/
def emailDomainClass (c : Nat) : Bool :=
  isAlphaCI c || isDigitCp c || decide (c = 46) || decide (c = 45)

/-- `[-\s]`: the credit-card pattern's group separator class. -/
def ccSepClass (c : Nat) : Bool := decide (c = 45) || isSpaceCp c

/-- `r+` as `r · r*`. -/
def rxPlus (r : Rx) : Rx := .cat r (.star r)

/-- `r?` as `ε | r`. -/
def rxOpt (r : Rx) : Rx := .alt .eps r

/-- The email regex built in PiiScanner::new (src/scanner.rs):
`(?i)^[a-z0-9._%+-]+@[a-z0-9.-]+\.[a-z]{2,}$`
(`{2,}` as two occurrences followed by a star; 64 is `@`, 46 is `.`). -/
def emailRx : Rx :=
  .cat (rxPlus (.cls emailLocalClass))
    (.cat (.cls (fun c => decide (c = 64)))
      (.cat (rxPlus (.cls emailDomainClass))
        (.cat (.cls (fun c => decide (c = 46)))
          (.cat (.cls isAlphaCI) (.cat (.cls isAlphaCI) (.star (.cls isAlphaCI)))))))

/-- `\d{4}`: four decimal digits. -/
def ccFourRx : Rx :=
  .cat (.cls isDigitCp) (.cat (.cls isDigitCp) (.cat (.cls isDigitCp) (.cls isDigitCp)))

/-- `\d{4}[-\s]?`: one repetition of the credit-card pattern's group. -/
def ccGroupRx : Rx := .cat ccFourRx (rxOpt (.cls ccSepClass))

/-- The credit-card regex built in PiiScanner::new (src/scanner.rs):
`^(?:\d{4}[-\s]?){3}\d{4}$` ({3} unrolled into three groups). -/
def ccRx : Rx := .cat ccGroupRx (.cat ccGroupRx (.cat ccGroupRx ccFourRx))

/-! ## The PII scanner (src/scanner.rs) -/

/-- PiiType (src/scanner.rs). -/
inductive PiiType where
  | Email : PiiType
  | CreditCard : PiiType
deriving DecidableEq

/-- PiiScanner::scan (src/scanner.rs): match the email regex, then the
credit-card regex; the first match wins, otherwise none.  The scanner holds
no mutable state: this is a pure function of the text. -/
def scan (text : List Nat) : Option PiiType :=
  if rxMatch emailRx text then some PiiType.Email
  else if rxMatch ccRx text then some PiiType.CreditCard
  else none

/-! ## UTF-8 validation and decoding (std::str::from_utf8) -/

/-- A UTF-8 continuation byte (0x80–0xBF). -/
def isCont (b : Nat) : Bool := decide (128 ≤ b ∧ b ≤ 191)

/-- UTF-8 decoding as performed by std::str::from_utf8 followed by iterating
the decoded code points.  Returns none exactly on invalid UTF-8: stray or
missing continuation bytes, overlong encodings (hence the 0xC2 lower bound
and the tightened second-byte ranges after 0xE0 and 0xF0), surrogates (the
second-byte cap after 0xED), and code points above U+10FFFF (first bytes
above 0xF4 and the second-byte cap after 0xF4). -/
def utf8Decode : List Nat → Option (List Nat)
  | [] => some []
  | b :: bs =>
    if b ≤ 127 then
      (utf8Decode bs).map (fun t => b :: t)
    else if b < 194 then none
    else if b ≤ 223 then
      match bs with
      | b1 :: bs1 =>
        if isCont b1 then
          (utf8Decode bs1).map (fun t => ((b - 192) * 64 + (b1 - 128)) :: t)
        else none
      | [] => none
    else if b ≤ 239 then
      match bs with
      | b1 :: b2 :: bs2 =>
        if (if b = 224 then decide (160 ≤ b1 ∧ b1 ≤ 191)
            else if b = 237 then decide (128 ≤ b1 ∧ b1 ≤ 159)
            else isCont b1) && isCont b2 then
          (utf8Decode bs2).map
            (fun t => ((b - 224) * 4096 + (b1 - 128) * 64 + (b2 - 128)) :: t)
        else none
      | _ => none
    else if b ≤ 244 then
      match bs with
      | b1 :: b2 :: b3 :: bs3 =>
        if (if b = 240 then decide (144 ≤ b1 ∧ b1 ≤ 191)
            else if b = 244 then decide (128 ≤ b1 ∧ b1 ≤ 143)
            else isCont b1) && isCont b2 && isCont b3 then
          (utf8Decode bs3).map
            (fun t =>
              ((b - 240) * 262144 + (b1 - 128) * 4096 + (b2 - 128) * 64 + (b3 - 128)) :: t)
        else none
      | _ => none
    else none

/-! ## Configuration and protocol data model -/

/-- MaskingRule (src/config.rs). -/
structure MaskingRule where
  table : Option String
  column : String
  strategy : String
deriving DecidableEq

/-- AppConfig (src/config.rs), restricted to the field the interceptor
reads: the ordered rule list. -/
structure AppConfig where
  rules : List MaskingRule
deriving DecidableEq

/-- Modelled from the spec: FieldDescription (§3) of the protocol message
model (crate::protocol::postgres is not under src/; the attribute list
follows §3 and the construction in the interceptor's tests). -/
structure FieldDescription where
  name : String
  tableOid : Nat
  columnIndex : Nat
  typeOid : Nat
  typeLen : Int
  typeModifier : Int
  formatCode : Nat
deriving DecidableEq

/-- Modelled from the spec: RowDescription (§3) — an ordered sequence of
FieldDescriptions. -/
structure RowDescription where
  fields : List FieldDescription
deriving DecidableEq

/-- Modelled from the spec: DataRow (§3) — an ordered sequence of cells,
each either NULL (the protocol's length −1 sentinel, here none) or a byte
string. -/
structure DataRow where
  values : List (Option (List Nat))
deriving DecidableEq

/-! ## The Anonymizer interceptor (src/interceptor.rs) -/

/-- The deterministic external generators used by Anonymizer::on_data_row,
abstracted as parameters: hashBytes models the std DefaultHasher run over
the cell bytes (val.hash + finish), and each fake* models one fake-crate
faker driven by ChaCha8Rng::seed_from_u64 applied to that seed, emitted as
UTF-8 bytes.  Each is a fixed deterministic function of its input within a
process, which is all the development relies on: every theorem holds for
every choice of these functions. -/
structure FakerEnv where
  hashBytes : List Nat → Nat
  fakeEmail : Nat → List Nat
  fakePhone : Nat → List Nat
  fakeAddress : Nat → List Nat
  fakeCreditCard : Nat → List Nat

/-- UTF-8 bytes of the literal MASKED fallback string. -/
def maskedBytes : List Nat := [77, 65, 83, 75, 69, 68]

/-- The strategy name email. -/
def stratEmail : String := "email"

/-- The strategy name credit_card. -/
def stratCreditCard : String := "credit_card"

/-- The strategy name address. -/
def stratAddress : String := "address"

/-- The masking step of Anonymizer::on_data_row (src/interceptor.rs, lines
86–104): hash the original bytes into a seed, build the seeded generator,
and produce the replacement value for the strategy; strategies outside the
closed set produce the constant MASKED. -/
def maskValue (env : FakerEnv) (strat : String) (val : List Nat) : List Nat :=
  let seed := env.hashBytes val
  match strat with
  | "email" => env.fakeEmail seed
  | "phone" => env.fakePhone seed
  | "address" => env.fakeAddress seed
  | "credit_card" => env.fakeCreditCard seed
  | _ => maskedBytes

/-- Anonymizer state (src/interceptor.rs): the configuration handle and the
column strategy table target_cols. -/
structure Anonymizer where
  config : AppConfig
  targetCols : List (Nat × String)

/-- Anonymizer::new: empty strategy table. -/
def Anonymizer.new (config : AppConfig) : Anonymizer := ⟨config, []⟩

/-- The table_match closure of on_row_description (src/interceptor.rs, lines
45–53): rule.table.as_ref().is_none_or(|_t| true) — true when table is
None, and the closure returns true unconditionally otherwise (table-name
resolution is a TODO in the source, so table-scoped rules also match). -/
def tableMatch (rule : MaskingRule) : Bool :=
  match rule.table with
  | none => true
  | some _ => true

/-- The inner rule loop of on_row_description: the first rule in
configuration order for which table_match holds and whose column equals the
field's name (break after the first match). -/
def findRuleFor (rules : List MaskingRule) (field : FieldDescription) : Option MaskingRule :=
  rules.find? (fun rule => tableMatch rule && rule.column == field.name)

/-- Anonymizer::on_row_description (src/interceptor.rs, lines 39–60), the
rebuilt table: target_cols is cleared, then for each field in order (with
its index) the first matching rule pushes (index, strategy). -/
def buildTargetCols (config : AppConfig) (msg : RowDescription) : List (Nat × String) :=
  msg.fields.enum.filterMap
    (fun p => (findRuleFor config.rules p.2).map (fun rule => (p.1, rule.strategy)))

/-- Anonymizer::on_row_description as the state step: the new target_cols
depends only on the configuration and the new RowDescription. -/
def onRowDescription (a : Anonymizer) (msg : RowDescription) : Anonymizer :=
  { a with targetCols := buildTargetCols a.config msg }

/-- The scanner as invoked by on_data_row on raw cell bytes
(src/interceptor.rs, lines 74–83): decode UTF-8, then PiiScanner::scan;
cells that are not valid UTF-8 yield none (treated as non-PII). -/
def scanBytes (val : List Nat) : Option PiiType :=
  match utf8Decode val with
  | some text => scan text
  | none => none

/-- The strategy resolution of on_data_row (src/interceptor.rs, lines
66–84) for the non-NULL cell at column index i: the explicit rule from
target_cols if the index is bound there, else the heuristic scan of the
cell bytes (PiiType::Email ↦ email, PiiType::CreditCard ↦ credit_card). -/
def resolveStrategy (targetCols : List (Nat × String)) (i : Nat) (val : List Nat) :
    Option String :=
  match targetCols.find? (fun p => p.1 == i) with
  | some p => some p.2
  | none =>
    match scanBytes val with
    | some PiiType.Email => some stratEmail
    | some PiiType.CreditCard => some stratCreditCard
    | none => none

/-- One cell of the on_data_row loop: a non-NULL cell is replaced in place
by the masked value when a strategy resolves (val.clear() followed by
extend_from_slice of the fake value's bytes), and left unchanged
otherwise. -/
def rewriteCell (env : FakerEnv) (targetCols : List (Nat × String)) (i : Nat)
    (val : List Nat) : List Nat :=
  match resolveStrategy targetCols i val with
  | some strat => maskValue env strat val
  | none => val

/-- Anonymizer::on_data_row (src/interceptor.rs, lines 62–108), the row
transform: every cell is visited with its index; NULL cells (none) are left
untouched; the cell list's shape is otherwise preserved. -/
def rewriteRow (env : FakerEnv) (targetCols : List (Nat × String)) (msg : DataRow) : DataRow :=
  ⟨msg.values.enum.map (fun p => p.2.map (rewriteCell env targetCols p.1))⟩

/-- Anonymizer::on_data_row returns anyhow::Result<DataRow>; the body has no
error construction and always returns Ok of the rewritten row. -/
def onDataRow (env : FakerEnv) (targetCols : List (Nat × String)) (msg : DataRow) :
    Except String DataRow :=
  Except.ok (rewriteRow env targetCols msg)

/-! ## The connection path (src/main.rs) -/

/-- process_connection (src/main.rs, lines 53–73), client→server direction:
tokio::io::copy(client_read, upstream_write) — the bytes read from the
client are written to the upstream unchanged (the source comment reads
"Simple blind forwarding for now"). -/
def clientToUpstream (bytes : List Nat) : List Nat := bytes

/-- process_connection, server→client direction:
tokio::io::copy(upstream_read, client_write) — the bytes read from the
upstream are written to the client unchanged; no codec, classifier or
interceptor is invoked anywhere on this path. -/
def upstreamToClient (bytes : List Nat) : List Nat := bytes

/-! ## Specification-side definitions (written from the claims' words) -/

/-- Written from the amended claim: walk the fields in order carrying the
running field index; record (index, strategy) of the first rule whose
column equals the field's name — the rule's table qualifier is not
consulted. -/
def resolveFieldsSpec (rules : List MaskingRule) (i : Nat) :
    List FieldDescription → List (Nat × String)
  | [] => []
  | f :: fs =>
    match rules.find? (fun rule => rule.column == f.name) with
    | some rule => (i, rule.strategy) :: resolveFieldsSpec rules (i + 1) fs
    | none => resolveFieldsSpec rules (i + 1) fs

/-- Written from the claim's words, for refutation: record the first rule
whose column equals the field's name and whose table is absent. -/
def buildTargetColsClaim (config : AppConfig) (msg : RowDescription) : List (Nat × String) :=
  msg.fields.enum.filterMap
    (fun p =>
      (config.rules.find? (fun rule => rule.table == none && rule.column == p.2.name)).map
        (fun rule => (p.1, rule.strategy)))

/-! ## Concrete sample data for witnesses and counterexamples -/

/-- A concrete faker environment used only to instantiate witness
statements. -/
def sampleEnv : FakerEnv :=
  ⟨fun _ => 0, fun _ => [101], fun _ => [112], fun _ => [97], fun _ => [99]⟩

/-- The column name used in the concrete resolver examples. -/
def sampleColumn : String := "c"

/-- The table name used in the concrete resolver examples. -/
def sampleTable : String := "t"

/-- Bytes of the ASCII string test@example.com. -/
def emailBytes : List Nat :=
  [116, 101, 115, 116, 64, 101, 120, 97, 109, 112, 108, 101, 46, 99, 111, 109]

/-- Bytes of the ASCII string some data. -/
def someDataBytes : List Nat := [115, 111, 109, 101, 32, 100, 97, 116, 97]

/-- A field named c with all-zero metadata. -/
def sampleField : FieldDescription := ⟨sampleColumn, 0, 0, 0, 0, 0, 0⟩

/-- A rule scoped to table t for column c with the email strategy. -/
def tableScopedRule : MaskingRule := ⟨some sampleTable, sampleColumn, stratEmail⟩

/-- A configuration holding only the table-scoped rule. -/
def tableScopedConfig : AppConfig := ⟨[tableScopedRule]⟩

/-- A RowDescription with the single field c. -/
def sampleRowDesc : RowDescription := ⟨[sampleField]⟩

/-- The empty configuration (no rules). -/
def emptyConfig : AppConfig := ⟨[]⟩

/-! ## Theorems -/

theorem rxMatch_nil (r : Rx) : rxMatch r [] = r.nullable := rfl

theorem rxMatch_cons (r : Rx) (c : Nat) (cs : List Nat) :
    rxMatch r (c :: cs) = rxMatch (r.deriv c) cs := rfl

theorem rewriteRow_getElem (env : FakerEnv) (tc : List (Nat × String)) (msg : DataRow)
    (i : Nat) :
    (rewriteRow env tc msg).values[i]?
      = (msg.values[i]?).map (fun cell => cell.map (rewriteCell env tc i)) := by
  show (msg.values.enum.map _)[i]? = _
  rw [List.getElem?_map, List.getElem?_enum]
  cases msg.values[i]? <;> rfl

theorem tableMatch_true (rule : MaskingRule) : tableMatch rule = true := by
  rw [tableMatch]
  cases rule.table <;> rfl

theorem buildTargetCols_enumFrom (rules : List MaskingRule) (n : Nat)
    (fs : List FieldDescription) :
    (List.enumFrom n fs).filterMap
        (fun p => (findRuleFor rules p.2).map (fun rule => (p.1, rule.strategy)))
      = resolveFieldsSpec rules n fs := by
  induction fs generalizing n with
  | nil => rfl
  | cons f fs ih =>
    have hpred : (fun rule => tableMatch rule && rule.column == f.name)
        = (fun rule : MaskingRule => rule.column == f.name) := by
      funext rule
      rw [tableMatch_true rule, Bool.true_and]
    rw [List.enumFrom, List.filterMap_cons, resolveFieldsSpec, findRuleFor, hpred]
    cases rules.find? (fun rule => rule.column == f.name) with
    | none => exact ih (n + 1)
    | some rule => rw [Option.map_some', ih (n + 1)]

theorem buildTargetCols_spec (config : AppConfig) (msg : RowDescription) :
    buildTargetCols config msg = resolveFieldsSpec config.rules 0 msg.fields :=
  buildTargetCols_enumFrom config.rules 0 msg.fields

/-- Claim C2 (code bug): process_connection forwards BOTH directions of the
connection verbatim (tokio::io::copy each way, "Simple blind forwarding for
now"); the client→server half of the claim holds, but the server→client
direction performs no interception either, contrary to the claim. -/
theorem c2_blind_forwarding (bytes : List Nat) :
    upstreamToClient bytes = bytes ∧ clientToUpstream bytes = bytes :=
  ⟨rfl, rfl⟩

/-- Claim C3 (confirmed): a NULL cell (the length −1 sentinel, none) is
emitted as NULL, whatever the strategy table and the heuristics. -/
theorem c3_null_preserved (env : FakerEnv) (tc : List (Nat × String)) (msg : DataRow)
    (i : Nat) (h : msg.values[i]? = some none) :
    (rewriteRow env tc msg).values[i]? = some none := by
  rw [rewriteRow_getElem, h]
  rfl

/-- Witness for C3 at a concrete NULL cell under a bound email rule. -/
theorem c3_null_preserved_witness :
    (rewriteRow sampleEnv [(0, stratEmail)] ⟨[none]⟩).values[0]? = some none :=
  c3_null_preserved sampleEnv [(0, stratEmail)] ⟨[none]⟩ 0 rfl

/-- Claim C4 (confirmed): when a cell's column index is bound in the
strategy table, the emitted cell is the mask of the original bytes under
the bound strategy — whatever the cell content, so the configured rule wins
over any content heuristic. -/
theorem c4_rule_precedence (env : FakerEnv) (tc : List (Nat × String)) (msg : DataRow)
    (i : Nat) (v : List Nat) (s : String)
    (hv : msg.values[i]? = some (some v))
    (hs : (tc.find? (fun p => p.1 == i)).map Prod.snd = some s) :
    (rewriteRow env tc msg).values[i]? = some (some (maskValue env s v)) := by
  rw [rewriteRow_getElem, hv]
  rcases hfind : tc.find? (fun p => p.1 == i) with _ | p
  · rw [hfind] at hs
    exact absurd hs (by simp)
  · rw [hfind] at hs
    simp only [Option.map_some'] at hs
    simp [rewriteCell, resolveStrategy, hfind, hs]

/-- Witness for C4: an email-shaped cell under an address rule is masked
with the address strategy. -/
theorem c4_rule_precedence_witness :
    (rewriteRow sampleEnv [(0, stratAddress)] ⟨[some emailBytes]⟩).values[0]?
      = some (some (maskValue sampleEnv stratAddress emailBytes)) :=
  c4_rule_precedence sampleEnv [(0, stratAddress)] ⟨[some emailBytes]⟩ 0 emailBytes
    stratAddress rfl rfl

/-- Counterexample for C7 as stated: under the single rule
{table: t, column: c, strategy: email} and a RowDescription of the single
field c, the code records (0, email) — the table-scoped rule matches even
though its table is present — while the resolver the claim describes
(first rule whose column matches AND whose table is absent) records
nothing. -/
theorem c7_counterexample :
    buildTargetCols tableScopedConfig sampleRowDesc = [(0, stratEmail)] ∧
    buildTargetColsClaim tableScopedConfig sampleRowDesc = [] := by
  decide

/-- Claim C7 (amended, proved): on each RowDescription the resolver rebuilds
the strategy table from scratch (independently of the previous table) by
walking the fields in order; each field records (field_index, strategy)
from the first rule in configuration order whose column equals the field's
name — regardless of the rule's table qualifier, which the code treats as
matching unconditionally — and evaluation stops at the first matching rule
per column. -/
theorem c7_resolver_rebuild (a : Anonymizer) (msg : RowDescription) :
    (onRowDescription a msg).targetCols = resolveFieldsSpec a.config.rules 0 msg.fields :=
  buildTargetCols_spec a.config msg

/-- Counterexample for C8 as stated: a freshly constructed Anonymizer — no
RowDescription ever bound — processes a DataRow and returns Ok (the row is
scanned against the empty strategy table); no ProtocolViolation error is
raised. -/
theorem c8_counterexample :
    onDataRow sampleEnv (Anonymizer.new emptyConfig).targetCols ⟨[some someDataBytes]⟩
      = Except.ok ⟨[some someDataBytes]⟩ :=
  rfl

/-- Claim C8 (amended, proved): on_data_row has no error path — every
DataRow is accepted whether or not a RowDescription is bound and whatever
its cell count (no cell-count check exists), and a row arriving at the
fresh interceptor is processed against the empty strategy table. -/
theorem c8_no_error :
    (∀ (env : FakerEnv) (tc : List (Nat × String)) (msg : DataRow),
        onDataRow env tc msg = Except.ok (rewriteRow env tc msg)) ∧
    (∀ (env : FakerEnv) (config : AppConfig) (msg : DataRow),
        onDataRow env (Anonymizer.new config).targetCols msg
          = Except.ok (rewriteRow env [] msg)) :=
  ⟨fun _ _ _ => rfl, fun _ _ _ => rfl⟩

/-- Counterexample for C9 as stated: bind the one-field RowDescription,
then feed a (malformed) two-cell DataRow: the emitted row has two cells,
not the bound RowDescription's field count of one. -/
theorem c9_counterexample :
    (rewriteRow sampleEnv
        (onRowDescription (Anonymizer.new emptyConfig) sampleRowDesc).targetCols
        ⟨[none, none]⟩).values.length ≠ sampleRowDesc.fields.length := by
  decide

/-- Claim C9 (amended, proved): every emitted DataRow has the cell count of
the INPUT DataRow — the transform preserves the cell list's length and no
check against the bound RowDescription's field count exists, so the claimed
equality holds exactly when the incoming row already conforms to the
protocol. -/
theorem c9_cell_count (env : FakerEnv) (tc : List (Nat × String)) (msg : DataRow) :
    (rewriteRow env tc msg).values.length = msg.values.length := by
  simp [rewriteRow]

